import Mathlib

/-!
Verification development for the gangAI-labs gateway (Python source under
`src/`).  The data model and the operations are shallowly embedded: the Redis
key-value store becomes association lists, `time.time()` becomes an explicit
`Nat` argument, random UUIDs become explicit fresh-identifier arguments, and
the asynchronous background tasks become explicit state-transforming
functions.  TTL based key expiry (redis `ex=` arguments) is not modelled as
spontaneous key disappearance; none of the proved properties depend on it.
-/

namespace GW

/-! ### Association-list primitives (the Redis keyspace and in-memory dicts) -/

/-- Lookup in an association list (first binding wins, as in a Python dict). -/
def alookup {κ α : Type} [DecidableEq κ] : List (κ × α) → κ → Option α
  | [], _ => none
  | (k, v) :: rest, k0 => if k = k0 then some v else alookup rest k0

/-- Insert or overwrite a binding, keeping the position of an existing key
(as a Python dict or a redis SET does). -/
def aset {κ α : Type} [DecidableEq κ] : List (κ × α) → κ → α → List (κ × α)
  | [], k0, v0 => [(k0, v0)]
  | (k, v) :: rest, k0, v0 =>
      if k = k0 then (k0, v0) :: rest else (k, v) :: aset rest k0 v0

/-- Delete every binding of a key (redis DEL / Python `del d[k]`). -/
def aerase {κ α : Type} [DecidableEq κ] (m : List (κ × α)) (k0 : κ) : List (κ × α) :=
  m.filter (fun p => decide (p.1 ≠ k0))

theorem alookup_aset_self {κ α : Type} [DecidableEq κ]
    (m : List (κ × α)) (k : κ) (v : α) : alookup (aset m k v) k = some v := by
  induction m with
  | nil => simp [aset, alookup]
  | cons p rest ih =>
      by_cases h : p.1 = k
      · simp [aset, h, alookup]
      · simp [aset, h, alookup, ih]

theorem alookup_aset_ne {κ α : Type} [DecidableEq κ]
    (m : List (κ × α)) (k k0 : κ) (v : α) (h : k ≠ k0) :
    alookup (aset m k v) k0 = alookup m k0 := by
  induction m with
  | nil => simp [aset, alookup, h]
  | cons p rest ih =>
      by_cases hp : p.1 = k
      · simp [aset, hp, alookup, h]
      · simp [aset, hp, alookup, ih]

theorem aerase_cons_eq {κ α : Type} [DecidableEq κ]
    (p : κ × α) (rest : List (κ × α)) (k : κ) (h : p.1 = k) :
    aerase (p :: rest) k = aerase rest k := by
  simp [aerase, List.filter_cons, h]

theorem aerase_cons_ne {κ α : Type} [DecidableEq κ]
    (p : κ × α) (rest : List (κ × α)) (k : κ) (h : p.1 ≠ k) :
    aerase (p :: rest) k = p :: aerase rest k := by
  simp [aerase, List.filter_cons, h]

theorem alookup_aerase_self {κ α : Type} [DecidableEq κ]
    (m : List (κ × α)) (k : κ) : alookup (aerase m k) k = none := by
  induction m with
  | nil => simp [aerase, alookup]
  | cons p rest ih =>
      by_cases hp : p.1 = k
      · rw [aerase_cons_eq p rest k hp]; exact ih
      · rw [aerase_cons_ne p rest k hp]
        simpa [alookup, hp] using ih

theorem alookup_aerase_ne {κ α : Type} [DecidableEq κ]
    (m : List (κ × α)) (k k0 : κ) (h : k ≠ k0) :
    alookup (aerase m k) k0 = alookup m k0 := by
  induction m with
  | nil => simp [aerase, alookup]
  | cons p rest ih =>
      by_cases hp : p.1 = k
      · have hne : p.1 ≠ k0 := by rw [hp]; exact h
        rw [aerase_cons_eq p rest k hp, ih]
        simp [alookup, hne]
      · rw [aerase_cons_ne p rest k hp]
        by_cases hk0 : p.1 = k0
        · simp [alookup, hk0]
        · simp [alookup, hk0, ih]

theorem alookup_none_of_mem_ne {κ α : Type} [DecidableEq κ]
    (m : List (κ × α)) (k : κ) (h : ∀ p ∈ m, p.1 ≠ k) : alookup m k = none := by
  induction m with
  | nil => rfl
  | cons p rest ih =>
      have hp : p.1 ≠ k := h p (by simp)
      simp [alookup, hp]
      exact ih (fun q hq => h q (by simp [hq]))

theorem alookup_some_mem {κ α : Type} [DecidableEq κ]
    (m : List (κ × α)) (k : κ) (v : α) (h : alookup m k = some v) : (k, v) ∈ m := by
  induction m with
  | nil => simp [alookup] at h
  | cons p rest ih =>
      obtain ⟨a, b⟩ := p
      by_cases hp : a = k
      · simp [alookup, hp] at h
        subst hp
        subst h
        exact List.mem_cons_self _ _
      · simp [alookup, hp] at h
        exact List.mem_cons_of_mem _ (ih h)

/-! ### Data model (spec section 3; `src/session/models.py` and the KV keyspace) -/

/-- Value in a session data bag or a flat JSON payload.  The only values the
modelled operations construct are strings, numbers, `None` and the empty
conversation list. -/
inductive Val where
  | null : Val
  | str (s : String) : Val
  | num (n : Nat) : Val
  | emptyList : Val
deriving DecidableEq, Repr

/-- Value in a pub/sub payload: either a flat value or a one-level JSON
object (the source publishes at most one level of nesting, e.g. the
`user_data` dict inside a register event). -/
inductive PVal where
  | v (x : Val) : PVal
  | dict (l : List (String × Val)) : PVal
deriving DecidableEq, Repr

/-- User record, the hash stored at `users:<username>`
(see `UserManager.save_user_to_redis`). -/
structure UserRec where
  password : String
  email : String
  role : String
  last_login : Nat
deriving DecidableEq, Repr

/-- Session record, the JSON blob stored at `sessions:<uuid>`
(see `SessionHandler.get_or_create_session`). -/
structure SessionRec where
  user_id : String
  chat_id : String
  data : List (String × Val)
  created_at : Nat
  last_access : Nat
deriving DecidableEq, Repr

/-- Connection record, the hash stored at `connections:<user>`
(see `ConnectionManager.track_connection`). -/
structure ConnRec where
  session_id : String
  gateway_id : String
  ws_connected : Bool
  last_seen : Nat
deriving DecidableEq, Repr

/-- A published pub/sub message: channel plus JSON payload
(`EventManager.publish`). -/
structure EventMsg where
  channel : String
  payload : List (String × PVal)
deriving DecidableEq, Repr

/-- One entry of `SessionHandler._pending_updates`. -/
structure PendingUpdate where
  user_id : String
  chat_id : String
  updates : List (String × Val)
  last_access : Nat
deriving DecidableEq, Repr

/-- The whole gateway state relevant to the session/user/connection claims:
the three KV key families, the pub/sub log, and the in-memory state of
`UserManager` (users cache), `SessionHandler` (session cache, pending
write-behind map, timestamp throttle map) and `ConnectionManager`
(connection timestamp throttle map). -/
structure GState where
  users : List (String × UserRec)
  sessions : List (String × SessionRec)
  connections : List (String × ConnRec)
  events : List EventMsg
  usersCache : List (String × UserRec)
  sessionCache : List (String × (SessionRec × Nat))
  pendingUpdates : List (String × PendingUpdate)
  lastTimestampUpdates : List (String × Nat)
  lastConnectionUpdates : List (String × Nat)
deriving DecidableEq, Repr

/-- The empty gateway state (fresh process, empty Redis). -/
def emptyState : GState :=
  ⟨[], [], [], [], [], [], [], [], []⟩

/-- SESSION_CONFIG TIMEOUT_MINUTES default 30, in seconds (config.py). -/
def timeoutSeconds : Nat := 1800

/-- SessionHandler._cache_ttl (handler.py, hardcoded 30 s). -/
def sessionCacheTtl : Nat := 30

/-- The 30 s throttle shared by SessionHandler.update_timestamp_only and
ConnectionManager.update_connection_timestamp. -/
def timestampUpdateInterval : Nat := 30

/-- Model of the HOST:PORT gateway identifier computed from the environment
(`_get_gateway_id`); a fixed opaque string, no claim depends on its value. -/
def gatewayId : String := "localhost:8000"

/-- Model of `_hash_password` (sha256 in `session/utils.py`): an injective
tagging function; only equality of digests matters to the source. -/
def hashPassword (pw : String) : String := "sha256$" ++ pw

/-- Python `dict.update`: fold the update pairs into the base map. -/
def dataUpdate (base updates : List (String × Val)) : List (String × Val) :=
  updates.foldl (fun acc p => aset acc p.1 p.2) base

/-! ### EventManager.publish (`src/session/events.py`) -/

/-- Append a pub/sub publication to the event log. -/
def publishEvent (st : GState) (channel : String) (payload : List (String × PVal)) : GState :=
  { st with events := st.events ++ [⟨channel, payload⟩] }

/-! ### SessionHandler (`src/session/handler.py`) -/

/-- The default data bag of a freshly created session:
`{"conversation": [], "api_key": None}`. -/
def freshSessionData : List (String × Val) :=
  [("conversation", Val.emptyList), ("api_key", Val.null)]

/-- Create path of `SessionHandler.get_or_create_session`: mint a new id
(`newId` stands for the random UUID), persist with TTL, cache it and publish
`events:session:new:<user>`. -/
def createSession (st : GState) (user_id chat_id newId : String) (now : Nat) :
    GState × SessionRec × String :=
  let session : SessionRec := ⟨user_id, chat_id, freshSessionData, now, now⟩
  let st1 := { st with sessions := aset st.sessions newId session,
                       sessionCache := aset st.sessionCache newId (session, now) }
  let st2 := publishEvent st1 ("events:session:new:" ++ user_id)
      [("session_id", .v (.str newId)), ("user_id", .v (.str user_id)),
       ("chat_id", .v (.str chat_id))]
  (st2, session, newId)

/-- Redis-fetch path of `get_or_create_session` when a session id was
supplied and the local cache missed. -/
def fetchSession (st : GState) (user_id chat_id sid newId : String) (now : Nat) :
    GState × SessionRec × String :=
  match alookup st.sessions sid with
  | some session =>
      ({ st with sessionCache := aset st.sessionCache sid (session, now) }, session, sid)
  | none => createSession st user_id chat_id newId now

/-- SessionHandler.get_or_create_session: reuse the cached/stored record when
`sessionId?` is supplied and found (cache hit only within the 30 s TTL),
otherwise create a fresh session under `newId`. -/
def get_or_create_session (st : GState) (user_id chat_id : String)
    (sessionId? : Option String) (newId : String) (now : Nat) :
    GState × SessionRec × String :=
  match sessionId? with
  | none => createSession st user_id chat_id newId now
  | some sid =>
    match alookup st.sessionCache sid with
    | some (cached, cachedAt) =>
        if now - cachedAt < sessionCacheTtl then (st, cached, sid)
        else fetchSession st user_id chat_id sid newId now
    | none => fetchSession st user_id chat_id sid newId now

/-- SessionHandler.update_session: non-blocking enqueue into the pending
write-behind map, merging with an already queued update for the same
session (later keys overwrite earlier). -/
def update_session (st : GState) (user_id chat_id : String)
    (updates : List (String × Val)) (session_id : String) (now : Nat) : GState :=
  match alookup st.pendingUpdates session_id with
  | none =>
      { st with pendingUpdates :=
                  aset st.pendingUpdates session_id ⟨user_id, chat_id, updates, now⟩ }
  | some p =>
      let merged : PendingUpdate :=
        { p with updates := dataUpdate p.updates updates, last_access := now }
      { st with pendingUpdates := aset st.pendingUpdates session_id merged }

/-- SessionHandler.delete_session: unconditionally delete the KV key. -/
def delete_session (st : GState) (session_id : String) : GState :=
  { st with sessions := aerase st.sessions session_id }

/-- SessionHandler.update_timestamp_only: throttled (30 s) rewrite of
`last_access` with TTL renewal; a no-op when the key is absent. -/
def update_timestamp_only (st : GState) (session_id : String) (now : Nat) : GState :=
  let lastUpdate := (alookup st.lastTimestampUpdates session_id).getD 0
  if timestampUpdateInterval ≤ now - lastUpdate then
    match alookup st.sessions session_id with
    | some session =>
        { st with
          sessions := aset st.sessions session_id { session with last_access := now },
          lastTimestampUpdates := aset st.lastTimestampUpdates session_id now }
    | none => st
  else st

/-- SessionHandler.cleanup_user_sessions: scan all session keys and delete
every session owned by the user. -/
def cleanup_user_sessions (st : GState) (user_id : String) : GState :=
  { st with sessions := st.sessions.filter (fun p => decide (p.2.user_id ≠ user_id)) }

/-- Merge step of the batch writer: `session["data"].update(d["updates"])`
and `session["last_access"] = d["last_access"]`. -/
def mergeSession (s : SessionRec) (d : PendingUpdate) : SessionRec :=
  { s with data := dataUpdate s.data d.updates, last_access := d.last_access }

/-- The payload of the per-session `events:session:update:<u>` publication
spawned by the batch writer. -/
def updateEventPayload (sid : String) (d : PendingUpdate) : List (String × PVal) :=
  [("session_id", .v (.str sid)), ("updates", .dict d.updates),
   ("chat_id", .v (.str d.chat_id))]

/-- Write phase of one `_batch_writer` round: each pending update is paired
with the pipelined read of its session taken against the pre-round KV;
present sessions are merged and rewritten (with TTL refresh) and their
update event is published by a spawned task, absent ones are skipped. -/
def flushWrites :
    List ((String × PendingUpdate) × Option SessionRec) →
    List (String × SessionRec) → List EventMsg →
    List (String × SessionRec) × List EventMsg
  | [], sess, ev => (sess, ev)
  | (_, none) :: rest, sess, ev => flushWrites rest sess ev
  | (p, some s) :: rest, sess, ev =>
      flushWrites rest (aset sess p.1 (mergeSession s p.2))
        (ev ++ [⟨"events:session:update:" ++ p.2.user_id, updateEventPayload p.1 p.2⟩])

/-- One round of `SessionHandler._batch_writer`: snapshot and clear the
pending map under the mutex, pipeline-read every target session, then
pipeline-write the merged records, spawning the per-session publication for
each written session. -/
def flushRound (st : GState) : GState :=
  let toProcess := st.pendingUpdates
  let pairs := toProcess.map (fun p => (p, alookup st.sessions p.1))
  let (sess, ev) := flushWrites pairs st.sessions st.events
  { st with sessions := sess, events := ev, pendingUpdates := [] }

/-! ### ConnectionManager (`src/session/connections.py`) -/

/-- Payload of a connection tracking event. -/
def connEventPayload (session_id gateway_id : String) (ws : Bool) (now : Nat) :
    List (String × PVal) :=
  [("session_id", .v (.str session_id)), ("gateway_id", .v (.str gateway_id)),
   ("ws_connected", .v (.str (if ws then "1" else "0"))), ("last_seen", .v (.num now))]

/-- ConnectionManager.track_connection: write the connection hash with TTL
and publish the ws/http connection event. -/
def track_connection (st : GState) (user_id session_id : String)
    (gateway_id? : Option String) (ws_connected : Bool) (now : Nat) : GState :=
  let gw := gateway_id?.getD gatewayId
  let conn : ConnRec := ⟨session_id, gw, ws_connected, now⟩
  let st1 := { st with connections := aset st.connections user_id conn }
  publishEvent st1
    ("events:connection:" ++ (if ws_connected then "ws" else "http") ++ ":" ++ user_id)
    (connEventPayload session_id gw ws_connected now)

/-- ConnectionManager.get_connection_info: the hash, `none` when the key is
absent (the source returns the empty, falsy dict). -/
def get_connection_info (st : GState) (user_id : String) : Option ConnRec :=
  alookup st.connections user_id

/-- ConnectionManager.update_connection_timestamp: throttled (30 s) rewrite
of `last_seen` and the recomputed gateway identifier, with TTL refresh.
When the key is absent redis HSET creates the hash holding only those two
fields; the empty `session_id` models the missing field. -/
def update_connection_timestamp (st : GState) (user_id session_id : String)
    (now : Nat) : GState :=
  let lastUpdate := (alookup st.lastConnectionUpdates user_id).getD 0
  if timestampUpdateInterval ≤ now - lastUpdate then
    let conn :=
      match alookup st.connections user_id with
      | some c => { c with last_seen := now, gateway_id := gatewayId }
      | none => (⟨"", gatewayId, false, now⟩ : ConnRec)
    { st with connections := aset st.connections user_id conn,
              lastConnectionUpdates := aset st.lastConnectionUpdates user_id now }
  else st

/-- ConnectionManager.remove_connection: delete the key and publish the
removal event. -/
def remove_connection (st : GState) (user_id : String) : GState :=
  let st1 := { st with connections := aerase st.connections user_id }
  publishEvent st1 ("events:connection:removed:" ++ user_id)
    [("user_id", .v (.str user_id))]

/-! ### UserManager (`src/session/users.py`) -/

/-- Serialisation of a user record for the register event payload. -/
def userDataDict (u : UserRec) : List (String × Val) :=
  [("password", .str u.password), ("email", .str u.email),
   ("role", .str u.role), ("last_login", .num u.last_login)]

/-- UserManager.save_user_to_redis: write the hash (long TTL), update the
local cache and publish `events:user:register:<u>`. -/
def save_user_to_redis (st : GState) (username : String) (u : UserRec) : GState :=
  let st1 := { st with users := aset st.users username u,
                       usersCache := aset st.usersCache username u }
  publishEvent st1 ("events:user:register:" ++ username)
    [("username", .v (.str username)), ("user_data", .dict (userDataDict u))]

/-- UserManager.get_user_from_redis: read-through cache; a Redis hit
populates the local cache. -/
def get_user_from_redis (st : GState) (username : String) : GState × Option UserRec :=
  match alookup st.usersCache username with
  | some u => (st, some u)
  | none =>
    match alookup st.users username with
    | some u => ({ st with usersCache := aset st.usersCache username u }, some u)
    | none => (st, none)

/-- UserManager.register: refuse an existing username (HTTP 400), otherwise
persist the new record with the hashed password and role `user`. -/
def register (st : GState) (username email password : String) (now : Nat) :
    Except Nat GState :=
  let res := get_user_from_redis st username
  match res.2 with
  | some _ => .error 400
  | none =>
      .ok (save_user_to_redis res.1 username ⟨hashPassword password, email, "user", now⟩)

/-- UserManager.login (users.py 98-148): verify the credentials, stamp
`last_login`, and when a connection record referencing a session exists,
delete that session and the connection and publish the implicit-logout
event; then create a fresh session (under the minted id `newSessionId`),
track a non-WS connection and renew the session timestamp.  On failure the
HTTP status is returned; both failure paths raise before mutating anything
(the error path of this model drops a possible read-through cache fill,
which only mirrors the KV). -/
def login (st : GState) (username password newSessionId : String) (now : Nat) :
    Except Nat (GState × String) :=
  let res := get_user_from_redis st username
  match res.2 with
  | none => .error 401
  | some userData =>
    if userData.password ≠ hashPassword password then .error 401
    else
      let st1 := save_user_to_redis res.1 username { userData with last_login := now }
      let st2 :=
        match alookup st1.connections username with
        | none => st1
        | some conn =>
          if conn.session_id = "" then st1
          else
            let a := delete_session st1 conn.session_id
            let b := remove_connection a username
            publishEvent b ("events:session:logout:" ++ username)
              [("user_id", .v (.str username)),
               ("session_id", .v (.str conn.session_id)),
               ("reason", .v (.str "new_login"))]
      let res3 := get_or_create_session st2 username "default" none newSessionId now
      let st4 := track_connection res3.1 username res3.2.2 (some gatewayId) false now
      let st5 := update_timestamp_only st4 res3.2.2 now
      .ok (st5, res3.2.2)

/-- UserManager.logout: remove the connection record and publish the logout
event carrying the WS-cleanup flag.  The session record is not touched. -/
def logout (st : GState) (user_id session_id : String) : GState :=
  let st1 := remove_connection st user_id
  publishEvent st1 ("events:session:logout:" ++ user_id)
    [("user_id", .v (.str user_id)), ("session_id", .v (.str session_id)),
     ("action", .v (.str "cleanup_ws"))]

/-! ### Reachable states for the single-session-per-user claim -/

/-- Client-visible operations relevant to the single-active-session
invariant: register and login over HTTP, and logout. -/
inductive Op where
  | register (username email password : String) : Op
  | login (username password newSessionId : String) : Op
  | logout (user_id session_id : String) : Op
deriving Repr

/-- Apply one operation at a given time; a failing register/login leaves the
state unchanged (the source raises before mutating on those paths). -/
def stepOp (st : GState) (op : Op) (now : Nat) : GState :=
  match op with
  | .register u e p =>
      match register st u e p now with
      | .ok st1 => st1
      | .error _ => st
  | .login u p nsid =>
      match login st u p nsid now with
      | .ok r => r.1
      | .error _ => st
  | .logout u s => logout st u s

/-- Run a timed sequence of operations. -/
def runOps (st : GState) : List (Op × Nat) → GState
  | [] => st
  | (op, now) :: rest => runOps (stepOp st op now) rest

/-- Number of live session records owned by a user. -/
def userSessionCount (st : GState) (user_id : String) : Nat :=
  (st.sessions.filter (fun p => p.2.user_id == user_id)).length

/-! ### SessionCleaner (`src/session/cleaner.py`) -/

/-- The inactivity cutoff `time.time() - days_inactive * 86400`. -/
def inactiveCutoff (now days_inactive : Nat) : Nat :=
  now - days_inactive * 86400

/-- Body of the inactive-users sweep for one user entry: when `last_login`
is strictly older than the cutoff, delete all of the user's sessions and
the connection record (closing any WS) and publish the inactive-cleanup
event; the user record itself is not touched. -/
def sweepUser (st : GState) (cutoff : Nat) (entry : String × UserRec) : GState :=
  if entry.2.last_login < cutoff then
    let a := cleanup_user_sessions st entry.1
    let b := remove_connection a entry.1
    publishEvent b ("events:user:inactive_cleanup:" ++ entry.1)
      [("username", .v (.str entry.1)), ("reason", .v (.str "long_inactivity")),
       ("action", .v (.str "cleanup_sessions_and_ws"))]
  else st

/-- SessionCleaner.cleanup_inactive_users: iterate over the snapshot of the
`users:*` keys applying the per-user body (the sweep never mutates user
records, so reading each hash inside the loop agrees with the snapshot). -/
def cleanup_inactive_users (st : GState) (cutoff : Nat) : GState :=
  st.users.foldl (fun acc e => sweepUser acc cutoff e) st

/-! ### SecurityManager (`src/fast_api/security_manager.py`) -/

/-- The JWT claims relevant to the gateway. -/
structure Payload where
  sub : Option String
  user_id : Option String
  role : Option String
deriving DecidableEq, Repr

/-- Outcome of `jwt.decode` on a present, non-sentinel token string (the
credential primitive is opaque, spec section 4.2). -/
inductive DecodeResult where
  | ok (p : Payload) : DecodeResult
  | expiredSignature : DecodeResult
  | claimsError : DecodeResult
  | jwtError : DecodeResult
deriving DecidableEq, Repr

/-- An HTTPException: status code and the error summary of its detail. -/
structure HTTPError where
  status : Nat
  detail : String
deriving DecidableEq, Repr

/-- SecurityManager.verify_token: a missing token, the empty string and the
sentinel strings "undefined" and "null" fail with 401 before any decode;
decode failures map to their 401 variants. -/
def verify_token (decode : String → DecodeResult) (token : Option String) :
    Except HTTPError Payload :=
  match token with
  | none => .error ⟨401, "Authentication required"⟩
  | some t =>
    if t = "" ∨ t = "undefined" ∨ t = "null" then
      .error ⟨401, "Authentication required"⟩
    else
      match decode t with
      | .ok p => .ok p
      | .expiredSignature => .error ⟨401, "Token expired"⟩
      | .claimsError => .error ⟨401, "Invalid token claims"⟩
      | .jwtError => .error ⟨401, "Invalid token"⟩

/-! ### Auth gates (`src/session/manager.py`) -/

/-- Python `a or b` on optional strings (None and the empty string are
falsy). -/
def pyOr (a b : Option String) : Option String :=
  match a with
  | some s => if s = "" then b else some s
  | none => b

/-- The principal returned by the auth gates. -/
structure Principal where
  user_id : String
  username : Option String
  role : String
  session_id : String
deriving DecidableEq, Repr

/-- SessionManager.get_current_user_with_activity, the HTTP auth-gate
dependency: verify the token; a falsy extracted user id (None or the empty
string, Python's `if not user_id`) fails with 401; when no connection
record exists create a default session (`newId` stands for its minted
UUID) and track a non-WS connection, then re-fetch the record; refresh the
throttled connection and session timestamps and return the principal. -/
def get_current_user_with_activity (st : GState) (decode : String → DecodeResult)
    (token : Option String) (newId : String) (now : Nat) :
    Except HTTPError (GState × Principal) :=
  match verify_token decode token with
  | .error e => .error e
  | .ok payload =>
    match pyOr payload.sub payload.user_id with
    | none => .error ⟨401, "Invalid token: missing user_id"⟩
    | some user_id =>
      if user_id = "" then .error ⟨401, "Invalid token: missing user_id"⟩
      else
      let res :=
        match get_connection_info st user_id with
        | some c => (st, some c)
        | none =>
          let r := get_or_create_session st user_id "default" none newId now
          let st1 := track_connection r.1 user_id r.2.2 (some gatewayId) false now
          (st1, get_connection_info st1 user_id)
      match res.2 with
      | none => .error ⟨400, "No active session found"⟩
      | some conn =>
        if conn.session_id = "" then .error ⟨400, "No active session found"⟩
        else
          let st2 := update_connection_timestamp res.1 user_id conn.session_id now
          let st3 := update_timestamp_only st2 conn.session_id now
          .ok (st3, ⟨user_id, payload.sub, (payload.role).getD "user", conn.session_id⟩)

/-- Python `expected_session_id and session_id != expected_session_id`. -/
def expectedMismatch (expected : Option String) (session_id : String) : Bool :=
  match expected with
  | none => false
  | some e => if e = "" then false else decide (session_id ≠ e)

/-- SessionManager.verify_and_update_activity, the WS-side verifier: verify
the token; a falsy extracted user id (None or the empty string, Python's
`if not user_id`) fails with 401; require an existing connection record
(400 "No active session" otherwise); optionally enforce the expected
session id; refresh the throttled timestamps and return the principal. -/
def verify_and_update_activity (st : GState) (decode : String → DecodeResult)
    (token : Option String) (expected_session_id : Option String) (now : Nat) :
    Except HTTPError (GState × Principal) :=
  match verify_token decode token with
  | .error e => .error e
  | .ok payload =>
    match pyOr payload.sub payload.user_id with
    | none => .error ⟨401, "Invalid token"⟩
    | some user_id =>
      if user_id = "" then .error ⟨401, "Invalid token"⟩
      else
      match get_connection_info st user_id with
      | none => .error ⟨400, "No active session"⟩
      | some conn =>
        if expectedMismatch expected_session_id conn.session_id then
          .error ⟨400, "Session mismatch"⟩
        else
          let st1 := update_connection_timestamp st user_id conn.session_id now
          let st2 := update_timestamp_only st1 conn.session_id now
          .ok (st2, ⟨user_id, payload.sub, (payload.role).getD "user", conn.session_id⟩)

/-! ### WebSocket engine (`src/wss/manager.py`, `src/wss/registry.py`) -/

/-- WEBSOCKETS_CONFIG CACHE_TTL default 300 s. -/
def wsCacheTtl : Nat := 300

/-- A deduplication cache entry (wss/models.py CachedMessage). -/
structure CachedMsg where
  message_type : String
  message_data : String
  timestamp : Nat
  user_id : String
  session_id : String
deriving DecidableEq, Repr

/-- Frames the gateway writes to one client socket. -/
inductive Frame where
  | welcome (user_id session_id gateway_id : String) : Frame
  | ack (api_key session_id gateway_id : String) : Frame
  | err (message : String) : Frame
  | pongF : Frame
deriving DecidableEq, Repr

/-- WebsocketsManager state for one socket: the gateway state, the
deduplication cache keyed by (user, session, message type), the frames
written to the socket, and the log of session-update calls issued by the
spawned API-key background tasks. -/
structure WsState where
  g : GState
  messageCache : List ((String × String × String) × CachedMsg)
  sent : List Frame
  kvWorkLog : List (String × String × String)
deriving Repr

/-- WebsocketsManager._is_duplicate_message: a cached entry for the same
(user, session, type) with the same data within CACHE_TTL. -/
def is_duplicate_message (ws : WsState) (user_id session_id mtype mdata : String)
    (now : Nat) : Bool :=
  match alookup ws.messageCache (user_id, session_id, mtype) with
  | none => false
  | some cached =>
      (cached.message_data == mdata) && decide (now - cached.timestamp < wsCacheTtl)

/-- WebsocketsManager._cache_message. -/
def cache_message (ws : WsState) (user_id session_id mtype mdata : String)
    (now : Nat) : WsState :=
  let entry : CachedMsg := ⟨mtype, mdata, now, user_id, session_id⟩
  { ws with messageCache := aset ws.messageCache (user_id, session_id, mtype) entry }

/-- WebsocketsManager._send_ack. -/
def send_ack (ws : WsState) (key session_id : String) : WsState :=
  { ws with sent := ws.sent ++ [Frame.ack key session_id gatewayId] }

/-- WebsocketsManager._process_api_key_update, the spawned background task:
enqueue `{"api_key": key}` through the batched writer (its failure path,
which evicts the cache entry, is not modelled — KV enqueue cannot fail
here). -/
def process_api_key_update (ws : WsState) (user_id session_id key : String)
    (now : Nat) : WsState :=
  { ws with
    g := update_session ws.g user_id "default" [("api_key", .str key)] session_id now,
    kvWorkLog := ws.kvWorkLog ++ [(user_id, session_id, key)] }

/-- WebsocketsManager._handle_api_key_update: duplicates within the TTL skip
the KV work but still receive an ack; otherwise cache, ack immediately and
spawn the background KV update. -/
def handle_api_key_update (ws : WsState) (user_id session_id key : String)
    (now : Nat) : WsState :=
  if is_duplicate_message ws user_id session_id "update_api_key" key now then
    send_ack ws key session_id
  else
    let ws1 := cache_message ws user_id session_id "update_api_key" key now
    let ws2 := send_ack ws1 key session_id
    process_api_key_update ws2 user_id session_id key now

/-- Send `update_api_key` with the same key once per listed time. -/
def sendApiKeyN (ws : WsState) (user_id session_id key : String) :
    List Nat → WsState
  | [] => ws
  | t :: ts =>
      sendApiKeyN (handle_api_key_update ws user_id session_id key t)
        user_id session_id key ts

/-- Number of ack frames written to the socket. -/
def ackCount (ws : WsState) : Nat :=
  (ws.sent.filter (fun f => match f with | .ack _ _ _ => true | _ => false)).length

/-- In-memory registry entry (wss/models.py ConnectionInfo, minus the raw
socket handle). -/
structure RegConn where
  session_id : String
  gateway_id : String
  connected_at : Nat
  last_seen : Nat
  role : String
deriving DecidableEq, Repr

/-- Result of the `/ws/connect` acceptance protocol, up to entering the
receive loop. -/
structure WsConnectResult where
  g : GState
  reg : List (String × RegConn)
  closeFrame : Option (Nat × String)
  tracked : Bool
  welcomeSent : Option Frame
  loopEntered : Bool
deriving Repr

/-- WebsocketsRegistry.track_ws_connection: store the in-memory record and
write the connection hash (session_id, gateway_id, ws_connected = "1",
last_seen, connected_at) with TTL.  No claim reads the connected_at field,
which is therefore not part of `ConnRec`. -/
def track_ws_connection (st : GState) (reg : List (String × RegConn))
    (user_id session_id gateway_id : String) (now : Nat) :
    GState × List (String × RegConn) :=
  ({ st with connections := aset st.connections user_id ⟨session_id, gateway_id, true, now⟩ },
   aset reg user_id ⟨session_id, gateway_id, now, now, "user"⟩)

/-- Accepted branch of ws_connect: track the connection, initialise the
health state and monitors, send the welcome frame and enter the receive
loop (the loop body and the final cleanup are beyond the claims here). -/
def wsAccept (st : GState) (reg : List (String × RegConn))
    (user_id session_id : String) (now : Nat) : WsConnectResult :=
  let tr := track_ws_connection st reg user_id session_id gatewayId now
  ⟨tr.1, tr.2, none, true, some (Frame.welcome user_id session_id gatewayId), true⟩

/-- The `/ws/connect` acceptance protocol (ws_connect in wss/manager.py):
the socket is accepted unconditionally, the token is verified, and a falsy
extracted user id (None or the empty string) raises ValueError — both are
caught and close 1008 "Invalid token"; then the stored connection record,
when one exists, must reference the handshake session id (else close 1008
"Session mismatch" before anything is tracked); a missing record skips
that check.  A handshake without a session_id query parameter is outside
the modelled claims. -/
def ws_connect (st : GState) (reg : List (String × RegConn))
    (decode : String → DecodeResult) (token : Option String)
    (session_id : String) (now : Nat) : WsConnectResult :=
  match verify_token decode token with
  | .error _ => ⟨st, reg, some (1008, "Invalid token"), false, none, false⟩
  | .ok payload =>
    match pyOr payload.user_id payload.sub with
    | none => ⟨st, reg, some (1008, "Invalid token"), false, none, false⟩
    | some user_id =>
      if user_id = "" then ⟨st, reg, some (1008, "Invalid token"), false, none, false⟩
      else
      match get_connection_info st user_id with
      | some conn =>
        if conn.session_id ≠ session_id then
          ⟨st, reg, some (1008, "Session mismatch"), false, none, false⟩
        else wsAccept st reg user_id session_id now
      | none => wsAccept st reg user_id session_id now

/-! ### HttpxManager (`src/utils/httpx_manager.py`) -/

/-- Outcome of one breaker-wrapped `_execute_request` attempt: a decoded
success body, an HTTPStatusError from raise_for_status, a timeout, a
network error, or a CircuitBreakerError raised by the open breaker. -/
inductive AttemptOutcome where
  | success (body : String) : AttemptOutcome
  | httpError (code : Nat) : AttemptOutcome
  | timeoutErr : AttemptOutcome
  | networkErr : AttemptOutcome
  | breakerOpen : AttemptOutcome
deriving DecidableEq, Repr

/-- Result of make_request: a decoded body, a normalised error dict, or the
exception re-raised to the caller once the retries are exhausted. -/
inductive ReqResult where
  | ok (body : String) : ReqResult
  | errDict (error message : String) : ReqResult
  | raised (e : AttemptOutcome) : ReqResult
deriving DecidableEq, Repr

/-- One make_request body around the breaker-decorated request:
CircuitBreakerError and non-5xx HTTPStatusError are converted to returned
error dicts (tenacity then sees a normal return and does not retry);
timeouts, network errors and 5xx are re-raised to the retry decorator. -/
def attemptStep : AttemptOutcome → ReqResult ⊕ AttemptOutcome
  | .success body => .inl (.ok body)
  | .breakerOpen => .inl (.errDict "CIRCUIT_BREAKER_OPEN" "Service temporarily unavailable")
  | .httpError code =>
      if code < 500 then .inl (.errDict ("HTTP_" ++ toString code) "HTTPStatusError")
      else .inr (.httpError code)
  | .timeoutErr => .inr .timeoutErr
  | .networkErr => .inr .networkErr

/-- HTTPX_CONFIG RETRY_ATTEMPTS default (tenacity stop_after_attempt). -/
def retryAttempts : Nat := 3

/-- The tenacity retry loop: the i-th attempt observes `outcomes i`; every
exception escaping the body is of a retried type, so the loop retries while
attempts remain and re-raises afterwards.  Returns the result and the
number of attempts performed. -/
def retryLoop (outcomes : Nat → AttemptOutcome) : Nat → Nat → ReqResult × Nat
  | _, 0 => (.raised .timeoutErr, 0)
  | i, remaining + 1 =>
    match attemptStep (outcomes i) with
    | .inl r => (r, 1)
    | .inr e =>
      if remaining = 0 then (.raised e, 1)
      else
        let r := retryLoop outcomes (i + 1) remaining
        (r.1, r.2 + 1)

/-- HttpxManager.make_request under the retry decorator. -/
def make_request (outcomes : Nat → AttemptOutcome) : ReqResult × Nat :=
  retryLoop outcomes 0 retryAttempts

/-! ### Scheduling trace of one flush round (for the publication-ordering
claim) -/

/-- Main-task actions of the write phase of one flush round, in program
order: for each pending update whose session was present in the pipelined
read, the SET is queued on the pipeline and the publication task is
spawned; afterwards the pipeline execution starts and later completes. -/
inductive FlushAct where
  | queueSet (sid : String) : FlushAct
  | spawnPublish (sid : String) : FlushAct
  | execStart : FlushAct
  | execComplete : FlushAct
deriving DecidableEq, Repr

/-- The pipeline-building loop of the write phase, in program order. -/
def flushLoopActs (st : GState) : List FlushAct :=
  st.pendingUpdates.foldr (fun p acc =>
    match alookup st.sessions p.1 with
    | none => acc
    | some _ => FlushAct.queueSet p.1 :: FlushAct.spawnPublish p.1 :: acc) []

/-- Program-order trace of the write phase of one flush round. -/
def flushProgOrder (st : GState) : List FlushAct :=
  flushLoopActs st ++ [FlushAct.execStart, FlushAct.execComplete]

/-- An action of a concrete interleaved execution: a main-task action, or
the actual publication performed by one spawned task. -/
inductive RunAct where
  | main (a : FlushAct) : RunAct
  | publishEvt (sid : String) : RunAct
deriving DecidableEq, Repr

/-- The main-task actions of a schedule, in order. -/
def mainActs (sched : List RunAct) : List FlushAct :=
  sched.filterMap (fun a => match a with | .main x => some x | .publishEvt _ => none)

/-- The performed publications of a schedule, in order. -/
def schedPubs (sched : List RunAct) : List String :=
  sched.filterMap (fun a => match a with | .publishEvt s => some s | .main _ => none)

/-- The publications spawned by a program-order trace. -/
def spawnedSids (prog : List FlushAct) : List String :=
  prog.filterMap (fun a => match a with | .spawnPublish s => some s | _ => none)

/-- The sessions a flush round actually writes: pending and present in the
pipelined read. -/
def writtenSids (st : GState) : List String :=
  st.pendingUpdates.filterMap (fun p =>
    match alookup st.sessions p.1 with
    | some _ => some p.1
    | none => none)

/-- Admissibility of an interleaved schedule for a program-order trace
under the cooperative scheduler: the main task performs exactly its
program-order actions in order; every spawned publication runs exactly
once; in every prefix a publication has run only if its spawn has, and
only once the main task has first yielded, which happens when the write
pipeline starts executing. -/
def admissible (prog : List FlushAct) (sched : List RunAct) : Prop :=
  mainActs sched = prog ∧
  List.Perm (schedPubs sched) (spawnedSids prog) ∧
  (∀ k < sched.length + 1, ∀ sid ∈ spawnedSids prog,
      (schedPubs (List.take k sched)).count sid ≤
        (spawnedSids (mainActs (List.take k sched))).count sid) ∧
  (∀ k < sched.length + 1, schedPubs (List.take k sched) ≠ [] →
      FlushAct.execStart ∈ mainActs (List.take k sched))

/-- Claim C5 as stated: in every flush round, under every admissible
schedule, a per-session publication happens only after the pipelined write
has completed. -/
def publishAfterWriteClaim : Prop :=
  ∀ st : GState, ∀ sched : List RunAct, admissible (flushProgOrder st) sched →
    ∀ k < sched.length + 1, schedPubs (List.take k sched) ≠ [] →
      FlushAct.execComplete ∈ mainActs (List.take k sched)

/-! ### Helper lemmas -/

theorem alookup_none_mem_ne {κ α : Type} [DecidableEq κ]
    (m : List (κ × α)) (k : κ) (h : alookup m k = none) : ∀ p ∈ m, p.1 ≠ k := by
  induction m with
  | nil => intro p hp; simp at hp
  | cons q rest ih =>
      intro p hp
      by_cases hq : q.1 = k
      · simp [alookup, hq] at h
      · simp [alookup, hq] at h
        rcases List.mem_cons.mp hp with h1 | h1
        · rw [h1]; exact hq
        · exact ih h p h1

theorem alookup_aerase_none {κ α : Type} [DecidableEq κ]
    (m : List (κ × α)) (k k0 : κ) (h : alookup m k0 = none) :
    alookup (aerase m k) k0 = none := by
  apply alookup_none_of_mem_ne
  intro p hp
  exact alookup_none_mem_ne m k0 h p (List.mem_of_mem_filter hp)

theorem update_timestamp_only_connections (st : GState) (sid : String) (now : Nat) :
    (update_timestamp_only st sid now).connections = st.connections := by
  unfold update_timestamp_only
  by_cases h : timestampUpdateInterval ≤ now - (alookup st.lastTimestampUpdates sid).getD 0
  · simp only [if_pos h]
    cases alookup st.sessions sid <;> rfl
  · simp only [if_neg h]

theorem update_timestamp_only_events (st : GState) (sid : String) (now : Nat) :
    (update_timestamp_only st sid now).events = st.events := by
  unfold update_timestamp_only
  by_cases h : timestampUpdateInterval ≤ now - (alookup st.lastTimestampUpdates sid).getD 0
  · simp only [if_pos h]
    cases alookup st.sessions sid <;> rfl
  · simp only [if_neg h]

theorem update_timestamp_only_sessions_ne (st : GState) (sid k : String) (now : Nat)
    (h : k ≠ sid) :
    alookup (update_timestamp_only st sid now).sessions k = alookup st.sessions k := by
  unfold update_timestamp_only
  by_cases h2 : timestampUpdateInterval ≤ now - (alookup st.lastTimestampUpdates sid).getD 0
  · simp only [if_pos h2]
    cases hs : alookup st.sessions sid
    · rfl
    · simpa using alookup_aset_ne st.sessions sid k _ (fun hc => h hc.symm)
  · simp only [if_neg h2]

theorem update_timestamp_only_sessions_self (st : GState) (sid : String) (now : Nat)
    (s : SessionRec) (h : alookup st.sessions sid = some s) (hacc : s.last_access = now) :
    alookup (update_timestamp_only st sid now).sessions sid = some s := by
  unfold update_timestamp_only
  by_cases h2 : timestampUpdateInterval ≤ now - (alookup st.lastTimestampUpdates sid).getD 0
  · simp only [if_pos h2]
    rw [h]
    have hrec : ({ s with last_access := now } : SessionRec) = s := by
      cases s; simp_all
    simpa [hrec] using alookup_aset_self st.sessions sid s
  · simp only [if_neg h2]
    exact h

theorem update_connection_timestamp_sessions (st : GState) (uid sid : String) (now : Nat) :
    (update_connection_timestamp st uid sid now).sessions = st.sessions := by
  unfold update_connection_timestamp
  by_cases h : timestampUpdateInterval ≤ now - (alookup st.lastConnectionUpdates uid).getD 0
  · simp only [if_pos h]
  · simp only [if_neg h]

theorem update_connection_timestamp_events (st : GState) (uid sid : String) (now : Nat) :
    (update_connection_timestamp st uid sid now).events = st.events := by
  unfold update_connection_timestamp
  by_cases h : timestampUpdateInterval ≤ now - (alookup st.lastConnectionUpdates uid).getD 0
  · simp only [if_pos h]
  · simp only [if_neg h]

theorem update_connection_timestamp_lastTs (st : GState) (uid sid : String) (now : Nat) :
    (update_connection_timestamp st uid sid now).lastTimestampUpdates =
      st.lastTimestampUpdates := by
  unfold update_connection_timestamp
  by_cases h : timestampUpdateInterval ≤ now - (alookup st.lastConnectionUpdates uid).getD 0
  · simp only [if_pos h]
  · simp only [if_neg h]

theorem update_connection_timestamp_conn_stable (st : GState) (uid sid : String)
    (now : Nat) (w : Bool)
    (h : alookup st.connections uid = some ⟨sid, gatewayId, w, now⟩) :
    alookup (update_connection_timestamp st uid sid now).connections uid =
      some ⟨sid, gatewayId, w, now⟩ := by
  unfold update_connection_timestamp
  by_cases h2 : timestampUpdateInterval ≤ now - (alookup st.lastConnectionUpdates uid).getD 0
  · simp only [if_pos h2, h]
    simpa using alookup_aset_self st.connections uid _
  · simp only [if_neg h2]
    exact h

/-! ### Claim C8 -/

/-- C8: a missing token, the empty string, the literal "undefined" and the
literal "null" all fail verification with the 401 Unauthorized class — no
claims are returned and no other error class is raised — whatever the
decode primitive does. -/
theorem verify_token_sentinel_401 (decode : String → DecodeResult)
    (token : Option String)
    (h : token = none ∨ token = some "" ∨ token = some "undefined" ∨
      token = some "null") :
    verify_token decode token = .error ⟨401, "Authentication required"⟩ := by
  rcases h with h | h | h | h <;> subst h <;> rfl

/-- Witness for C8 at the literal token "null". -/
theorem verify_token_sentinel_401_witness :
    verify_token (fun _ => DecodeResult.jwtError) (some "null") =
      .error ⟨401, "Authentication required"⟩ :=
  verify_token_sentinel_401 (fun _ => DecodeResult.jwtError) (some "null")
    (Or.inr (Or.inr (Or.inr rfl)))

/-! ### Claim C4 -/

/-- The retry loop performs at least one attempt whenever fuel remains. -/
theorem retryLoop_pos (o : Nat → AttemptOutcome) (i fuel : Nat) :
    1 ≤ (retryLoop o i (fuel + 1)).2 := by
  cases h : attemptStep (o i) with
  | inl r => simp [retryLoop, h]
  | inr e =>
      by_cases hf : fuel = 0 <;> simp [retryLoop, h, hf]

/-- Claim C4 as stated, after the spec: a retry is performed exactly on the
classes timeout, network error, 5xx and 429 (while attempts remain), and a
non-429 4xx response is never retried and is returned as an HTTP_<code>
error dict. -/
def retryPolicyClaim : Prop :=
  (∀ o : Nat → AttemptOutcome,
      (o 0 = .timeoutErr ∨ o 0 = .networkErr ∨ (∃ c, 500 ≤ c ∧ o 0 = .httpError c) ∨
        o 0 = .httpError 429) →
      2 ≤ (make_request o).2) ∧
  (∀ o : Nat → AttemptOutcome, ∀ c, 400 ≤ c → c < 500 → c ≠ 429 →
      o 0 = .httpError c →
      (make_request o).2 = 1 ∧
        (make_request o).1 = .errDict ("HTTP_" ++ toString c) "HTTPStatusError") ∧
  (∀ o : Nat → AttemptOutcome, 2 ≤ (make_request o).2 →
      (o 0 = .timeoutErr ∨ o 0 = .networkErr ∨ (∃ c, 500 ≤ c ∧ o 0 = .httpError c) ∨
        o 0 = .httpError 429))

/-- Counterexample to C4 as stated: a 429 response is not retried — the
make_request body catches every HTTPStatusError below 500 (429 included)
and returns an HTTP_429 error dict, so tenacity never sees an exception. -/
theorem retry_on_429_refuted : ¬ retryPolicyClaim := by
  intro h
  have h429 := h.1 (fun _ => AttemptOutcome.httpError 429)
    (Or.inr (Or.inr (Or.inr rfl)))
  have hvalue : (make_request (fun _ => AttemptOutcome.httpError 429)).2 = 1 := rfl
  omega

/-- C4 amended: a retry happens exactly when the attempt raises a timeout,
a network error or a 5xx response; every 4xx response — 429 included — is
returned as an HTTP_<code> error dict after exactly one attempt. -/
theorem make_request_retry_policy (o : Nat → AttemptOutcome) :
    (2 ≤ (make_request o).2 ↔
      (o 0 = .timeoutErr ∨ o 0 = .networkErr ∨ ∃ c, 500 ≤ c ∧ o 0 = .httpError c)) ∧
    (∀ c, 400 ≤ c → c < 500 → o 0 = .httpError c →
      make_request o = (.errDict ("HTTP_" ++ toString c) "HTTPStatusError", 1)) := by
  have hdone : ∀ r, attemptStep (o 0) = Sum.inl r → make_request o = (r, 1) := by
    intro r hr
    simp [make_request, retryLoop, hr]
  have hcase : ∀ e, attemptStep (o 0) = Sum.inr e →
      make_request o = ((retryLoop o 1 2).1, (retryLoop o 1 2).2 + 1) := by
    intro e he
    simp [make_request, retryLoop, he]
  have h1 : 1 ≤ (retryLoop o 1 2).2 := retryLoop_pos o 1 1
  constructor
  · cases ho : o 0 with
    | success body =>
        rw [hdone (ReqResult.ok body) (by simp [attemptStep, ho])]
        apply iff_of_false
        · norm_num
        · rintro (h | h | ⟨c, hc, he⟩)
          · exact absurd h (by simp)
          · exact absurd h (by simp)
          · exact absurd he (by simp)
    | breakerOpen =>
        rw [hdone (ReqResult.errDict "CIRCUIT_BREAKER_OPEN" "Service temporarily unavailable")
          (by simp [attemptStep, ho])]
        apply iff_of_false
        · norm_num
        · rintro (h | h | ⟨c, hc, he⟩)
          · exact absurd h (by simp)
          · exact absurd h (by simp)
          · exact absurd he (by simp)
    | httpError c =>
        by_cases hc : c < 500
        · rw [hdone (ReqResult.errDict ("HTTP_" ++ toString c) "HTTPStatusError")
            (by simp [attemptStep, ho, hc])]
          apply iff_of_false
          · norm_num
          · rintro (h | h | ⟨c2, hc2, he⟩)
            · exact absurd h (by simp)
            · exact absurd h (by simp)
            · have hcc : c = c2 := by injection he
              omega
        · rw [hcase (AttemptOutcome.httpError c) (by simp [attemptStep, ho, hc])]
          apply iff_of_true
          · show 2 ≤ (retryLoop o 1 2).2 + 1
            omega
          · exact Or.inr (Or.inr ⟨c, by omega, rfl⟩)
    | timeoutErr =>
        rw [hcase AttemptOutcome.timeoutErr (by simp [attemptStep, ho])]
        apply iff_of_true
        · show 2 ≤ (retryLoop o 1 2).2 + 1
          omega
        · exact Or.inl rfl
    | networkErr =>
        rw [hcase AttemptOutcome.networkErr (by simp [attemptStep, ho])]
        apply iff_of_true
        · show 2 ≤ (retryLoop o 1 2).2 + 1
          omega
        · exact Or.inr (Or.inl rfl)
  · intro c h4 h5 ho
    rw [hdone (ReqResult.errDict ("HTTP_" ++ toString c) "HTTPStatusError")
      (by simp [attemptStep, ho, h5])]

/-- Witness for C4 amended: a 404 is returned as HTTP_404 after exactly one
attempt. -/
theorem make_request_retry_policy_witness :
    make_request (fun _ => AttemptOutcome.httpError 404) =
      (.errDict "HTTP_404" "HTTPStatusError", 1) :=
  (make_request_retry_policy (fun _ => AttemptOutcome.httpError 404)).2 404
    (by omega) (by omega) rfl

/-! ### Claim C10 -/

theorem flushWrites_lookup_none (sid : String) :
    ∀ (l : List ((String × PendingUpdate) × Option SessionRec))
      (sess : List (String × SessionRec)) (ev : List EventMsg),
      (∀ pr ∈ l, pr.2.isSome = true → pr.1.1 ≠ sid) →
      alookup sess sid = none →
      alookup (flushWrites l sess ev).1 sid = none := by
  intro l
  induction l with
  | nil =>
      intro sess ev _ hs
      simpa [flushWrites] using hs
  | cons pr rest ih =>
      intro sess ev hl hs
      obtain ⟨p, r⟩ := pr
      cases r with
      | none =>
          simp only [flushWrites]
          exact ih sess ev (fun q hq hqs => hl q (List.mem_cons_of_mem _ hq) hqs) hs
      | some s =>
          have hne : p.1 ≠ sid := hl (p, some s) (List.mem_cons_self _ _) (by simp)
          simp only [flushWrites]
          refine ih _ _ (fun q hq hqs => hl q (List.mem_cons_of_mem _ hq) hqs) ?_
          rw [alookup_aset_ne _ _ _ _ hne]
          exact hs

/-- C10: the batch writer never creates a session key: a pending update
whose session key is absent at flush time is silently discarded — the key
is still absent after the round and the update is not re-queued (the
pending map is cleared) — so the set of session keys after a flush round is
a subset of the set before it. -/
theorem flushRound_never_creates (st : GState) (sid : String)
    (h : alookup st.sessions sid = none) :
    alookup (flushRound st).sessions sid = none ∧
    (flushRound st).pendingUpdates = [] := by
  constructor
  · show alookup
      (flushWrites (st.pendingUpdates.map (fun p => (p, alookup st.sessions p.1)))
        st.sessions st.events).1 sid = none
    apply flushWrites_lookup_none
    · intro pr hpr hps
      obtain ⟨q, hq, hqe⟩ := List.mem_map.mp hpr
      subst hqe
      intro heq
      rw [heq, h] at hps
      simp at hps
    · exact h
  · rfl

/-- Witness for C10: a queued update for the absent key sX is dropped. -/
theorem flushRound_never_creates_witness :
    alookup (flushRound { emptyState with
      pendingUpdates := [("sX", ⟨"u", "default", [("api_key", Val.str "k")], 5⟩)] }).sessions
      "sX" = none ∧
    (flushRound { emptyState with
      pendingUpdates := [("sX", ⟨"u", "default", [("api_key", Val.str "k")], 5⟩)] }).pendingUpdates
      = [] :=
  flushRound_never_creates _ "sX" rfl

/-! ### Claim C3 -/

/-- Once the key is cached with the timestamp of the first send, every
further send within the TTL is a duplicate: it appends one ack frame and
changes nothing else. -/
theorem sendApiKeyN_dups (u s key : String) (t0 : Nat) :
    ∀ (ts : List Nat) (ws : WsState),
      alookup ws.messageCache (u, s, "update_api_key") =
        some ⟨"update_api_key", key, t0, u, s⟩ →
      (∀ t ∈ ts, t0 ≤ t ∧ t - t0 < wsCacheTtl) →
      (sendApiKeyN ws u s key ts).sent =
        ws.sent ++ ts.map (fun _ => Frame.ack key s gatewayId) ∧
      (sendApiKeyN ws u s key ts).g = ws.g ∧
      (sendApiKeyN ws u s key ts).kvWorkLog = ws.kvWorkLog ∧
      (sendApiKeyN ws u s key ts).messageCache = ws.messageCache := by
  intro ts
  induction ts with
  | nil =>
      intro ws hc hts
      simp [sendApiKeyN]
  | cons t rest ih =>
      intro ws hc hts
      have hdup : is_duplicate_message ws u s "update_api_key" key t = true := by
        have ht := hts t (by simp)
        simp [is_duplicate_message, hc]
        exact ht.2
      have hstep : sendApiKeyN ws u s key (t :: rest) =
          sendApiKeyN { ws with sent := ws.sent ++ [Frame.ack key s gatewayId] }
            u s key rest := by
        simp [sendApiKeyN, handle_api_key_update, hdup, send_ack]
      rw [hstep]
      have hrest := ih { ws with sent := ws.sent ++ [Frame.ack key s gatewayId] } hc
        (fun t2 h2 => hts t2 (by simp [h2]))
      refine ⟨?_, hrest.2.1, hrest.2.2.1, hrest.2.2.2⟩
      rw [hrest.1]
      simp

/-- C3: N ≥ 1 sends of update_api_key with the same key, all within
CACHE_TTL of the first send, produce exactly N ack frames and exactly one
piece of KV work: a single update_session call, leaving one pending entry
`{"api_key": key}` in the write-behind map (which one flush round then
writes once). -/
theorem api_key_dedup (ws : WsState) (u s key : String) (t0 : Nat) (ts : List Nat)
    (hc : alookup ws.messageCache (u, s, "update_api_key") = none)
    (hp : alookup ws.g.pendingUpdates s = none)
    (hts : ∀ t ∈ ts, t0 ≤ t ∧ t - t0 < wsCacheTtl) :
    (sendApiKeyN ws u s key (t0 :: ts)).sent =
      ws.sent ++ (t0 :: ts).map (fun _ => Frame.ack key s gatewayId) ∧
    (sendApiKeyN ws u s key (t0 :: ts)).kvWorkLog = ws.kvWorkLog ++ [(u, s, key)] ∧
    alookup (sendApiKeyN ws u s key (t0 :: ts)).g.pendingUpdates s =
      some ⟨u, "default", [("api_key", Val.str key)], t0⟩ := by
  have hnodup : is_duplicate_message ws u s "update_api_key" key t0 = false := by
    simp [is_duplicate_message, hc]
  have hstep : sendApiKeyN ws u s key (t0 :: ts) =
      sendApiKeyN { ws with
        g := { ws.g with
               pendingUpdates := aset ws.g.pendingUpdates s
                 ⟨u, "default", [("api_key", Val.str key)], t0⟩ },
        messageCache := aset ws.messageCache (u, s, "update_api_key")
          ⟨"update_api_key", key, t0, u, s⟩,
        sent := ws.sent ++ [Frame.ack key s gatewayId],
        kvWorkLog := ws.kvWorkLog ++ [(u, s, key)] } u s key ts := by
    simp [sendApiKeyN, handle_api_key_update, hnodup, cache_message, send_ack,
      process_api_key_update, update_session, hp]
  rw [hstep]
  have hrest := sendApiKeyN_dups u s key t0 ts
    { ws with
      g := { ws.g with
             pendingUpdates := aset ws.g.pendingUpdates s
               ⟨u, "default", [("api_key", Val.str key)], t0⟩ },
      messageCache := aset ws.messageCache (u, s, "update_api_key")
        ⟨"update_api_key", key, t0, u, s⟩,
      sent := ws.sent ++ [Frame.ack key s gatewayId],
      kvWorkLog := ws.kvWorkLog ++ [(u, s, key)] }
    (by
      have hself := alookup_aset_self ws.messageCache (u, s, "update_api_key")
        (⟨"update_api_key", key, t0, u, s⟩ : CachedMsg)
      simpa using hself)
    hts
  refine ⟨?_, ?_, ?_⟩
  · rw [hrest.1]
    simp
  · rw [hrest.2.2.1]
  · rw [hrest.2.1]
    simpa using alookup_aset_self ws.g.pendingUpdates s _

/-- Witness for C3 at three sends of the same key within the TTL. -/
theorem api_key_dedup_witness :
    (sendApiKeyN ⟨emptyState, [], [], []⟩ "alice" "S1" "K" [10, 12, 15]).sent =
      [Frame.ack "K" "S1" gatewayId, Frame.ack "K" "S1" gatewayId,
       Frame.ack "K" "S1" gatewayId] ∧
    (sendApiKeyN ⟨emptyState, [], [], []⟩ "alice" "S1" "K" [10, 12, 15]).kvWorkLog =
      [("alice", "S1", "K")] ∧
    alookup (sendApiKeyN ⟨emptyState, [], [], []⟩ "alice" "S1" "K"
        [10, 12, 15]).g.pendingUpdates "S1" =
      some ⟨"alice", "default", [("api_key", Val.str "K")], 10⟩ :=
  api_key_dedup ⟨emptyState, [], [], []⟩ "alice" "S1" "K" 10 [12, 15] rfl rfl
    (by decide)

/-! ### Claim C6 -/

/-- C6: a handshake whose token verifies but whose stored connection record
references a different session id is closed with 1008 "Session mismatch":
no connection is tracked (KV and in-memory registry are unchanged), no
welcome frame is sent and the receive loop is never entered. -/
theorem ws_connect_session_mismatch (st : GState) (reg : List (String × RegConn))
    (decode : String → DecodeResult) (t sid uid : String) (p : Payload)
    (conn : ConnRec) (now : Nat)
    (hv : verify_token decode (some t) = .ok p)
    (hu : pyOr p.user_id p.sub = some uid)
    (hnz : uid ≠ "")
    (hc : alookup st.connections uid = some conn)
    (hne : conn.session_id ≠ sid) :
    ws_connect st reg decode (some t) sid now =
      ⟨st, reg, some (1008, "Session mismatch"), false, none, false⟩ := by
  unfold ws_connect
  rw [hv]
  simp [hu, hnz, get_connection_info, hc, hne]

/-- Witness for C6 at a concrete mismatching handshake. -/
theorem ws_connect_session_mismatch_witness :
    ws_connect
      { emptyState with connections := [("alice", ⟨"S1", "localhost:8000", false, 0⟩)] }
      [] (fun _ => DecodeResult.ok ⟨some "alice", some "alice", some "user"⟩)
      (some "tok") "S2" 7 =
      ⟨{ emptyState with
          connections := [("alice", ⟨"S1", "localhost:8000", false, 0⟩)] },
        [], some (1008, "Session mismatch"), false, none, false⟩ :=
  ws_connect_session_mismatch _ [] _ "tok" "S2" "alice"
    ⟨some "alice", some "alice", some "user"⟩ ⟨"S1", "localhost:8000", false, 0⟩ 7
    rfl rfl (by decide) rfl (by decide)

/-! ### Claim C9 -/

/-- C9: a handshake whose token verifies and whose user has no connection
record skips the session-mismatch check entirely: the socket is accepted
with whatever session id the client supplied, a ws-attached connection
record with that id is tracked in the KV and the in-memory registry, the
welcome frame carries that id and the receive loop is entered. -/
theorem ws_connect_no_record_accepts (st : GState) (reg : List (String × RegConn))
    (decode : String → DecodeResult) (t sid uid : String) (p : Payload) (now : Nat)
    (hv : verify_token decode (some t) = .ok p)
    (hu : pyOr p.user_id p.sub = some uid)
    (hnz : uid ≠ "")
    (hc : alookup st.connections uid = none) :
    ws_connect st reg decode (some t) sid now =
      ⟨{ st with connections := aset st.connections uid ⟨sid, gatewayId, true, now⟩ },
        aset reg uid ⟨sid, gatewayId, now, now, "user"⟩,
        none, true, some (Frame.welcome uid sid gatewayId), true⟩ := by
  unfold ws_connect
  rw [hv]
  simp [hu, hnz, get_connection_info, hc, wsAccept, track_ws_connection]

/-- Witness for C9 at a concrete first handshake. -/
theorem ws_connect_no_record_accepts_witness :
    ws_connect emptyState []
      (fun _ => DecodeResult.ok ⟨some "alice", some "alice", some "user"⟩)
      (some "tok") "S9" 7 =
      ⟨{ emptyState with connections := [("alice", ⟨"S9", gatewayId, true, 7⟩)] },
        [("alice", ⟨"S9", gatewayId, 7, 7, "user"⟩)],
        none, true, some (Frame.welcome "alice" "S9" gatewayId), true⟩ :=
  ws_connect_no_record_accepts emptyState [] _ "tok" "S9" "alice"
    ⟨some "alice", some "alice", some "user"⟩ 7 rfl rfl (by decide) rfl

/-! ### Claim C2 -/

/-- Claim C2 as stated: for every valid token whose user has no connection
record, the auth gate of every authenticated entry point — the HTTP
dependency and the WS-side verifier — creates a default session and a
non-WS connection and returns the principal rather than failing. -/
def authGateClaim : Prop :=
  ∀ (st : GState) (decode : String → DecodeResult) (t uid newId : String)
    (p : Payload) (now : Nat),
    verify_token decode (some t) = .ok p →
    pyOr p.sub p.user_id = some uid →
    uid ≠ "" →
    alookup st.connections uid = none →
    newId ≠ "" →
    (∃ r, get_current_user_with_activity st decode (some t) newId now = .ok r) ∧
    (∃ r, verify_and_update_activity st decode (some t) none now = .ok r)

/-- Counterexample to C2 as stated: the WS-side verifier
verify_and_update_activity never creates a default session — with a valid
token and no connection record it fails with 400 "No active session". -/
theorem auth_gate_claim_refuted : ¬ authGateClaim := by
  intro h
  obtain ⟨-, r, hr⟩ := h emptyState
    (fun _ => DecodeResult.ok ⟨some "alice", some "alice", some "user"⟩)
    "tok" "alice" "S1" ⟨some "alice", some "alice", some "user"⟩ 0 rfl rfl
    (by decide) rfl (by decide)
  have hval : verify_and_update_activity emptyState
      (fun _ => DecodeResult.ok ⟨some "alice", some "alice", some "user"⟩)
      (some "tok") none 0 = .error ⟨400, "No active session"⟩ := rfl
  rw [hval] at hr
  exact Except.noConfusion hr

/-- C2 amended: with a valid token and no connection record, the HTTP gate
get_current_user_with_activity creates a default session under the minted
id, tracks a non-WS connection and returns the principal
{user_id, role, session_id}; the WS-side verifier
verify_and_update_activity instead fails with 400 "No active session". -/
theorem auth_gate_missing_connection (st : GState) (decode : String → DecodeResult)
    (t uid newId : String) (p : Payload) (now : Nat)
    (hv : verify_token decode (some t) = .ok p)
    (hu : pyOr p.sub p.user_id = some uid)
    (hnz : uid ≠ "")
    (hc : alookup st.connections uid = none)
    (hn : newId ≠ "") :
    (∃ st3, get_current_user_with_activity st decode (some t) newId now =
        .ok (st3, ⟨uid, p.sub, p.role.getD "user", newId⟩) ∧
      alookup st3.sessions newId = some ⟨uid, "default", freshSessionData, now, now⟩ ∧
      alookup st3.connections uid = some ⟨newId, gatewayId, false, now⟩) ∧
    (∀ e, verify_and_update_activity st decode (some t) e now =
      .error ⟨400, "No active session"⟩) := by
  constructor
  · refine ⟨update_timestamp_only
      (update_connection_timestamp
        (track_connection (createSession st uid "default" newId now).1
          uid newId (some gatewayId) false now)
        uid newId now)
      newId now, ?_, ?_, ?_⟩
    · unfold get_current_user_with_activity
      rw [hv]
      simp only [hu]
      rw [if_neg hnz]
      rw [show get_connection_info st uid = none from hc]
      simp only [get_or_create_session]
      rw [show (createSession st uid "default" newId now).2.2 = newId from rfl]
      rw [show get_connection_info
          (track_connection (createSession st uid "default" newId now).1
            uid newId (some gatewayId) false now) uid =
        some ⟨newId, gatewayId, false, now⟩ from by
          simp [get_connection_info, track_connection, publishEvent,
            alookup_aset_self]]
      simp [hn, createSession]
    · rw [update_timestamp_only_sessions_self _ newId now
        ⟨uid, "default", freshSessionData, now, now⟩ ?_ rfl]
      rw [update_connection_timestamp_sessions]
      show alookup (track_connection (createSession st uid "default" newId now).1
        uid newId (some gatewayId) false now).sessions newId = _
      simp [track_connection, publishEvent, createSession, alookup_aset_self]
    · rw [update_timestamp_only_connections]
      apply update_connection_timestamp_conn_stable
      simp [track_connection, publishEvent, alookup_aset_self]
  · intro e
    unfold verify_and_update_activity
    rw [hv]
    simp [hu, hnz, get_connection_info, hc]

/-- Witness for C2 amended at a concrete state and token. -/
theorem auth_gate_missing_connection_witness :
    (∃ st3, get_current_user_with_activity emptyState
        (fun _ => DecodeResult.ok ⟨some "bob", some "bob", some "user"⟩)
        (some "tok") "N1" 0 =
        .ok (st3, ⟨"bob", some "bob", "user", "N1"⟩) ∧
      alookup st3.sessions "N1" = some ⟨"bob", "default", freshSessionData, 0, 0⟩ ∧
      alookup st3.connections "bob" = some ⟨"N1", gatewayId, false, 0⟩) ∧
    (∀ e, verify_and_update_activity emptyState
        (fun _ => DecodeResult.ok ⟨some "bob", some "bob", some "user"⟩)
        (some "tok") e 0 =
      .error ⟨400, "No active session"⟩) :=
  auth_gate_missing_connection emptyState
    (fun _ => DecodeResult.ok ⟨some "bob", some "bob", some "user"⟩)
    "tok" "bob" "N1" ⟨some "bob", some "bob", some "user"⟩ 0 rfl rfl (by decide)
    rfl (by decide)

/-! ### Claim C7 -/

/-- The inactive-cleanup event published for a swept user. -/
def inactiveCleanupEvent (u : String) : EventMsg :=
  ⟨"events:user:inactive_cleanup:" ++ u,
   [("username", .v (.str u)), ("reason", .v (.str "long_inactivity")),
    ("action", .v (.str "cleanup_sessions_and_ws"))]⟩

/-- A sweep step for any user entry preserves the three purge facts about a
user u: no remaining session of u, no connection of u, and any already
published event stays published. -/
theorem sweepUser_stable (st : GState) (cutoff : Nat) (e : String × UserRec)
    (u : String) (e0 : EventMsg)
    (hs : ∀ q ∈ st.sessions, q.2.user_id ≠ u)
    (hc : alookup st.connections u = none)
    (he : e0 ∈ st.events) :
    (∀ q ∈ (sweepUser st cutoff e).sessions, q.2.user_id ≠ u) ∧
    alookup (sweepUser st cutoff e).connections u = none ∧
    e0 ∈ (sweepUser st cutoff e).events := by
  unfold sweepUser
  by_cases hcut : e.2.last_login < cutoff
  · simp only [if_pos hcut, publishEvent, remove_connection, cleanup_user_sessions]
    refine ⟨?_, ?_, ?_⟩
    · intro q hq
      exact hs q (List.mem_of_mem_filter hq)
    · exact alookup_aerase_none _ _ _ hc
    · simp [he]
  · simp only [if_neg hcut]
    exact ⟨hs, hc, he⟩

/-- Sweeping the entry of an inactive user u purges u's sessions and
connection and publishes the inactive-cleanup event. -/
theorem sweepUser_purges (st : GState) (cutoff : Nat) (u : String) (urec : UserRec)
    (hcut : urec.last_login < cutoff) :
    (∀ q ∈ (sweepUser st cutoff (u, urec)).sessions, q.2.user_id ≠ u) ∧
    alookup (sweepUser st cutoff (u, urec)).connections u = none ∧
    inactiveCleanupEvent u ∈ (sweepUser st cutoff (u, urec)).events := by
  unfold sweepUser
  simp only [if_pos hcut, publishEvent, remove_connection, cleanup_user_sessions]
  refine ⟨?_, ?_, ?_⟩
  · intro q hq
    have := List.of_mem_filter hq
    simpa using this
  · exact alookup_aerase_self _ _
  · simp [inactiveCleanupEvent]

theorem sweepList_stable (cutoff : Nat) (u : String) (e0 : EventMsg) :
    ∀ (l : List (String × UserRec)) (st : GState),
      (∀ q ∈ st.sessions, q.2.user_id ≠ u) →
      alookup st.connections u = none →
      e0 ∈ st.events →
      (∀ q ∈ (l.foldl (fun acc e => sweepUser acc cutoff e) st).sessions,
        q.2.user_id ≠ u) ∧
      alookup (l.foldl (fun acc e => sweepUser acc cutoff e) st).connections u = none ∧
      e0 ∈ (l.foldl (fun acc e => sweepUser acc cutoff e) st).events := by
  intro l
  induction l with
  | nil =>
      intro st hs hc he
      exact ⟨hs, hc, he⟩
  | cons e rest ih =>
      intro st hs hc he
      have h1 := sweepUser_stable st cutoff e u e0 hs hc he
      simpa [List.foldl_cons] using
        ih (sweepUser st cutoff e) h1.1 h1.2.1 h1.2.2

theorem sweepList_purges (cutoff : Nat) (u : String) (urec : UserRec)
    (hcut : urec.last_login < cutoff) :
    ∀ (l : List (String × UserRec)) (st : GState), (u, urec) ∈ l →
      (∀ q ∈ (l.foldl (fun acc e => sweepUser acc cutoff e) st).sessions,
        q.2.user_id ≠ u) ∧
      alookup (l.foldl (fun acc e => sweepUser acc cutoff e) st).connections u = none ∧
      inactiveCleanupEvent u ∈ (l.foldl (fun acc e => sweepUser acc cutoff e) st).events := by
  intro l
  induction l with
  | nil =>
      intro st hmem
      simp at hmem
  | cons e rest ih =>
      intro st hmem
      rcases List.mem_cons.mp hmem with heq | hmem2
      · have h1 := sweepUser_purges st cutoff u urec hcut
        rw [← heq] at *
        simpa [List.foldl_cons] using
          sweepList_stable cutoff u (inactiveCleanupEvent u) rest
            (sweepUser st cutoff (u, urec)) h1.1 h1.2.1 h1.2.2
      · simpa [List.foldl_cons] using ih (sweepUser st cutoff e) hmem2

theorem sweepList_users (cutoff : Nat) :
    ∀ (l : List (String × UserRec)) (st : GState),
      (l.foldl (fun acc e => sweepUser acc cutoff e) st).users = st.users := by
  intro l
  induction l with
  | nil => intro st; rfl
  | cons e rest ih =>
      intro st
      rw [List.foldl_cons, ih]
      unfold sweepUser
      by_cases hcut : e.2.last_login < cutoff
      · simp [if_pos hcut, publishEvent, remove_connection, cleanup_user_sessions]
      · simp [if_neg hcut]

/-- C7: for every user whose last_login is strictly older than the cutoff,
the inactive-users sweep deletes all of that user's session keys and their
connection record and publishes events:user:inactive_cleanup:<u>, while the
user records (users:<username>) are left entirely unchanged. -/
theorem cleanup_inactive_users_purges (st : GState) (cutoff : Nat) (u : String)
    (urec : UserRec)
    (hu : alookup st.users u = some urec)
    (hold : urec.last_login < cutoff) :
    (cleanup_inactive_users st cutoff).users = st.users ∧
    (∀ q ∈ (cleanup_inactive_users st cutoff).sessions, q.2.user_id ≠ u) ∧
    alookup (cleanup_inactive_users st cutoff).connections u = none ∧
    inactiveCleanupEvent u ∈ (cleanup_inactive_users st cutoff).events := by
  have hmem := alookup_some_mem st.users u urec hu
  exact ⟨sweepList_users cutoff st.users st,
    sweepList_purges cutoff u urec hold st.users st hmem⟩

/-- Witness for C7: a user who last logged in before the cutoff keeps the
account but loses sessions and connection, and the event is published. -/
theorem cleanup_inactive_users_purges_witness :
    (cleanup_inactive_users { emptyState with
        users := [("bob", ⟨"h", "e", "user", 0⟩)],
        sessions := [("S", ⟨"bob", "default", [], 0, 0⟩)],
        connections := [("bob", ⟨"S", gatewayId, false, 0⟩)] } 5).users =
      [("bob", ⟨"h", "e", "user", 0⟩)] ∧
    (∀ q ∈ (cleanup_inactive_users { emptyState with
        users := [("bob", ⟨"h", "e", "user", 0⟩)],
        sessions := [("S", ⟨"bob", "default", [], 0, 0⟩)],
        connections := [("bob", ⟨"S", gatewayId, false, 0⟩)] } 5).sessions,
      q.2.user_id ≠ "bob") ∧
    alookup (cleanup_inactive_users { emptyState with
        users := [("bob", ⟨"h", "e", "user", 0⟩)],
        sessions := [("S", ⟨"bob", "default", [], 0, 0⟩)],
        connections := [("bob", ⟨"S", gatewayId, false, 0⟩)] } 5).connections "bob" =
      none ∧
    inactiveCleanupEvent "bob" ∈ (cleanup_inactive_users { emptyState with
        users := [("bob", ⟨"h", "e", "user", 0⟩)],
        sessions := [("S", ⟨"bob", "default", [], 0, 0⟩)],
        connections := [("bob", ⟨"S", gatewayId, false, 0⟩)] } 5).events :=
  cleanup_inactive_users_purges _ 5 "bob" ⟨"h", "e", "user", 0⟩ rfl (by decide)

/-! ### Claim C5 -/

theorem spawnedSids_loop (sess : List (String × SessionRec)) :
    ∀ l : List (String × PendingUpdate),
      spawnedSids (l.foldr (fun p acc =>
        match alookup sess p.1 with
        | none => acc
        | some _ => FlushAct.queueSet p.1 :: FlushAct.spawnPublish p.1 :: acc) []) =
      l.filterMap (fun p => match alookup sess p.1 with
        | some _ => some p.1
        | none => none) := by
  intro l
  induction l with
  | nil => rfl
  | cons p rest ih =>
      cases h : alookup sess p.1 <;>
        simp [List.foldr_cons, h, spawnedSids, List.filterMap_cons] <;>
        simpa [spawnedSids] using ih

/-- The publications spawned in one flush round are exactly the sessions
the round writes. -/
theorem spawnedSids_flushProgOrder (st : GState) :
    spawnedSids (flushProgOrder st) = writtenSids st := by
  have happ : spawnedSids (flushProgOrder st) = spawnedSids (flushLoopActs st) := by
    simp [flushProgOrder, spawnedSids, List.filterMap_append]
  rw [happ]
  unfold flushLoopActs writtenSids
  exact spawnedSids_loop st.sessions st.pendingUpdates

/-- C5 amended: the per-session publication tasks are spawned while the
write pipeline is still being built, before pipe.execute() runs; in every
admissible schedule each written session is published exactly once and
every publication happens only after the pipelined write has started — but
not necessarily after it has completed. -/
theorem flush_publish_ordering (st : GState) (sched : List RunAct)
    (h : admissible (flushProgOrder st) sched) :
    List.Perm (schedPubs sched) (writtenSids st) ∧
    (∀ k < sched.length + 1, schedPubs (List.take k sched) ≠ [] →
      FlushAct.execStart ∈ mainActs (List.take k sched)) := by
  obtain ⟨h1, h2, h3, h4⟩ := h
  exact ⟨(spawnedSids_flushProgOrder st) ▸ h2, h4⟩

instance admissibleDecidable (prog : List FlushAct) (sched : List RunAct) :
    Decidable (admissible prog sched) := by
  unfold admissible
  infer_instance

/-- Concrete flush-round state for the ordering counterexample: one pending
update whose session key exists. -/
def flushCexState : GState :=
  { emptyState with
    sessions := [("s1", ⟨"alice", "default", [], 0, 0⟩)],
    pendingUpdates := [("s1", ⟨"alice", "default", [("api_key", Val.str "k")], 5⟩)] }

/-- An admissible schedule in which the publication runs while the write
pipeline is executing, before it completes. -/
def flushCexSched : List RunAct :=
  [.main (.queueSet "s1"), .main (.spawnPublish "s1"), .main .execStart,
   .publishEvt "s1", .main .execComplete]

/-- Counterexample to C5 as stated: there is an admissible schedule of a
flush round in which a per-session publication happens before the
pipelined write completes — the publication is spawned as a background
task before pipe.execute() and may run as soon as the writer yields. -/
theorem flush_publish_claim_refuted : ¬ publishAfterWriteClaim := by
  intro h
  have hbad := h flushCexState flushCexSched (by decide) 4 (by decide) (by decide)
  exact absurd hbad (by decide)

/-- Witness for C5 amended at the concrete flush round and schedule. -/
theorem flush_publish_ordering_witness :
    List.Perm (schedPubs flushCexSched) (writtenSids flushCexState) ∧
    (∀ k < flushCexSched.length + 1, schedPubs (List.take k flushCexSched) ≠ [] →
      FlushAct.execStart ∈ mainActs (List.take k flushCexSched)) :=
  flush_publish_ordering flushCexState flushCexSched (by decide)

/-! ### Claim C1 -/

/-- The state returned by get_user_from_redis differs from its input at
most in the users cache. -/
theorem get_user_from_redis_fst (st : GState) (u : String) :
    (get_user_from_redis st u).1.sessions = st.sessions ∧
    (get_user_from_redis st u).1.connections = st.connections ∧
    (get_user_from_redis st u).1.events = st.events ∧
    (get_user_from_redis st u).1.lastTimestampUpdates = st.lastTimestampUpdates ∧
    (get_user_from_redis st u).1.sessionCache = st.sessionCache ∧
    (get_user_from_redis st u).1.lastConnectionUpdates = st.lastConnectionUpdates ∧
    (get_user_from_redis st u).1.pendingUpdates = st.pendingUpdates := by
  unfold get_user_from_redis
  cases h1 : alookup st.usersCache u
  · cases h2 : alookup st.users u <;> simp
  · simp

/-- Claim C1 as stated: in every state reachable from the empty state by
register, login and logout, each user owns at most one live session record
(every session record in this operation set was created by a login). -/
def singleSessionClaim : Prop :=
  ∀ (ops : List (Op × Nat)) (user_id : String),
    userSessionCount (runOps emptyState ops) user_id ≤ 1

/-- Counterexample to C1 as stated: register, login, logout, login leaves
two live session records owned by alice — logout removes only the
connection record, and the second login, finding no connection record,
skips the old-session deletion. -/
theorem single_session_claim_refuted : ¬ singleSessionClaim := by
  intro h
  have hle := h [(Op.register "alice" "a@x" "pw", 0), (Op.login "alice" "pw" "S1", 1),
    (Op.logout "alice" "S1", 2), (Op.login "alice" "pw" "S2", 3)] "alice"
  have hval : userSessionCount (runOps emptyState
      [(Op.register "alice" "a@x" "pw", 0), (Op.login "alice" "pw" "S1", 1),
       (Op.logout "alice" "S1", 2), (Op.login "alice" "pw" "S2", 3)]) "alice" = 2 := by
    decide
  omega

/-- C1 amended: login destroys the prior session only through the
connection record.  When a connection record referencing a session exists
at login time, login deletes that session and publishes the
implicit-logout event before creating the fresh session, and the
connection afterwards references only the fresh one; when no connection
record exists (for example after logout, which removes the connection but
not the session), the prior session is not destroyed, so two live
login-created sessions for one user are reachable. -/
theorem login_deletes_prior_session (st : GState) (username password nsid : String)
    (now : Nat) (urec : UserRec) (conn : ConnRec)
    (hu : (get_user_from_redis st username).2 = some urec)
    (hpw : urec.password = hashPassword password)
    (hconn : alookup st.connections username = some conn)
    (hsid : conn.session_id ≠ "")
    (hfresh : conn.session_id ≠ nsid) :
    ∃ st5, login st username password nsid now = .ok (st5, nsid) ∧
      alookup st5.sessions conn.session_id = none ∧
      alookup st5.connections username = some ⟨nsid, gatewayId, false, now⟩ ∧
      (∃ pl, EventMsg.mk ("events:session:logout:" ++ username) pl ∈ st5.events) := by
  rcases hg : get_user_from_redis st username with ⟨st0, uopt⟩
  have hu2 : uopt = some urec := by rw [hg] at hu; exact hu
  subst hu2
  have hpres := get_user_from_redis_fst st username
  rw [hg] at hpres
  simp only at hpres
  obtain ⟨hps, hpc, hpe, hplt, hpsc, hplc, hppu⟩ := hpres
  have hconn0 : alookup st0.connections username = some conn := by
    rw [hpc]; exact hconn
  unfold login
  rw [hg]
  simp only [hpw, ne_eq, eq_self_iff_true, not_true_eq_false, if_false, ite_false]
  have hconn1 : alookup (save_user_to_redis st0 username
      ⟨hashPassword password, urec.email, urec.role, now⟩).connections username =
      some conn := hconn0
  simp only [hconn1]
  rw [if_neg hsid]
  simp only [show ∀ (g : GState),
      (get_or_create_session g username "default" none nsid now).2.2 = nsid from
    fun g => rfl]
  refine ⟨_, rfl, ?_, ?_, ?_⟩
  · rw [update_timestamp_only_sessions_ne _ _ _ _ hfresh]
    simp only [track_connection, publishEvent, get_or_create_session, createSession]
    rw [alookup_aset_ne _ _ _ _ (fun hc => hfresh hc.symm)]
    simp only [remove_connection, delete_session, save_user_to_redis, publishEvent]
    exact alookup_aerase_self _ _
  · rw [update_timestamp_only_connections]
    simp only [track_connection, publishEvent, get_or_create_session, createSession,
      Option.getD]
    exact alookup_aset_self _ _ _
  · refine ⟨[("user_id", .v (.str username)),
      ("session_id", .v (.str conn.session_id)),
      ("reason", .v (.str "new_login"))], ?_⟩
    rw [update_timestamp_only_events]
    simp [track_connection, publishEvent, get_or_create_session, createSession,
      remove_connection, delete_session, save_user_to_redis]

/-- Witness for C1 amended: the second of two consecutive logins deletes
the session created by the first. -/
theorem login_deletes_prior_session_witness :
    ∃ st5, login (runOps emptyState
        [(Op.register "alice" "a@x" "pw", 0), (Op.login "alice" "pw" "S1", 1)])
        "alice" "pw" "S2" 3 = .ok (st5, "S2") ∧
      alookup st5.sessions "S1" = none ∧
      alookup st5.connections "alice" = some ⟨"S2", gatewayId, false, 3⟩ ∧
      (∃ pl, EventMsg.mk "events:session:logout:alice" pl ∈ st5.events) :=
  login_deletes_prior_session _ "alice" "pw" "S2" 3
    ⟨hashPassword "pw", "a@x", "user", 1⟩ ⟨"S1", gatewayId, false, 1⟩
    (by decide) rfl (by decide) (by decide) (by decide)

end GW
